import Mathlib

/-!
Verification development for the Farmbridge Technologies front-end scripts.

The repository has two JavaScript source files:
* an unnamed file defining `FarmbridgeVisualization` (a scroll-driven 3D
  scene: particle field, decorative objects, camera rig, render loop,
  WebGL fallback, lifecycle management), and
* `script.js` with site utilities, of which we embed `API.request`
  (HTTP retry wrapper) and the `Storage` local-storage cache.

Numeric state the browser holds in JS floats is modelled over `ℚ`
(exact arithmetic) where the code is piecewise-rational, and over `ℝ`
where the code calls `Math.sin` / `Math.cos` / `Math.PI`.
-/

namespace Farmbridge

/-! ## Camera rig

`FarmbridgeVisualization.updateCameraOnScroll` (unnamed file, lines
299-314).  The camera pose is a pure function of the scroll progress:
rotation about x and y, and a 3-component position.
-/

/-- Camera pose written by `updateCameraOnScroll`: rotation.x, rotation.y,
position.x, position.y, position.z. -/
structure CameraPose where
  rotX : ℝ
  rotY : ℝ
  posX : ℝ
  posY : ℝ
  posZ : ℝ

/-- Embedding of `updateCameraOnScroll`.  In the source
`maxRotation = Math.PI * 2`, `maxZoom = 150`, `minZoom = 50`, and
```
camera.rotation.x = scrollProgress * maxRotation * 0.3
camera.rotation.y = scrollProgress * maxRotation * 0.5
camera.position.z = minZoom + (maxZoom - minZoom) * (1 - scrollProgress)
camera.position.x = Math.sin(scrollProgress * Math.PI * 2) * 20
camera.position.y = Math.cos(scrollProgress * Math.PI * 2) * 20
``` -/
noncomputable def updateCameraOnScroll (progress : ℝ) : CameraPose :=
  { rotX := progress * (Real.pi * 2) * 0.3
    rotY := progress * (Real.pi * 2) * 0.5
    posZ := 50 + (150 - 50) * (1 - progress)
    posX := Real.sin (progress * Real.pi * 2) * 20
    posY := Real.cos (progress * Real.pi * 2) * 20 }

/-- Claim C2 counterexample: at scroll progress 0 the camera position's y
component is `cos 0 * 20 = 20`, not 0 as the claim states, so the claimed
pose `position = (0,0,150)` is false at the concrete input `progress = 0`. -/
theorem c2_counterexample :
    (updateCameraOnScroll 0).posY = 20 ∧ ¬ (updateCameraOnScroll 0).posY = 0 := by
  constructor
  · simp [updateCameraOnScroll]
  · simp [updateCameraOnScroll]

/-- Claim C2, amended: at scroll progress 0 the camera rig sets
`rotation = (0,0)` and `position = (0, 20, 150)` — the y component is 20
(`cos 0 * 20`), not 0; the other four components are as claimed. -/
theorem c2_amended_camera_at_zero :
    (updateCameraOnScroll 0).rotX = 0 ∧
    (updateCameraOnScroll 0).rotY = 0 ∧
    (updateCameraOnScroll 0).posX = 0 ∧
    (updateCameraOnScroll 0).posY = 20 ∧
    (updateCameraOnScroll 0).posZ = 150 := by
  refine ⟨?_, ?_, ?_, ?_, ?_⟩ <;> simp [updateCameraOnScroll]

/-- Claim C7: for progress in `[0,1]` the camera's `position.z` equals
`50 + (150 - 50) * (1 - progress)`, lies in `[50, 150]`, and is strictly
decreasing in progress. -/
theorem c7_posZ_formula_bounds_mono (p q : ℝ)
    (hp0 : 0 ≤ p) (hp1 : p ≤ 1) :
    (updateCameraOnScroll p).posZ = 50 + (150 - 50) * (1 - p) ∧
    50 ≤ (updateCameraOnScroll p).posZ ∧
    (updateCameraOnScroll p).posZ ≤ 150 ∧
    (p < q → (updateCameraOnScroll q).posZ < (updateCameraOnScroll p).posZ) := by
  refine ⟨rfl, ?_, ?_, ?_⟩
  · simp only [updateCameraOnScroll]
    nlinarith
  · simp only [updateCameraOnScroll]
    nlinarith
  · intro hpq
    simp only [updateCameraOnScroll]
    nlinarith

/-- Witness for C7 at the concrete inputs `p = 1/2`, `q = 1`. -/
theorem c7_witness :
    (updateCameraOnScroll (1/2)).posZ = 100 ∧
    50 ≤ (updateCameraOnScroll (1/2)).posZ ∧
    (updateCameraOnScroll (1/2)).posZ ≤ 150 ∧
    (updateCameraOnScroll 1).posZ < (updateCameraOnScroll (1/2)).posZ := by
  have h := c7_posZ_formula_bounds_mono (1/2) 1 (by norm_num) (by norm_num)
  refine ⟨?_, h.2.1, h.2.2.1, h.2.2.2 (by norm_num)⟩
  rw [h.1]; norm_num

/-! ## Particle field

`FarmbridgeVisualization.updateParticles` (unnamed file, lines 389-411).
The flat `Float32Array` of the source groups three consecutive entries per
particle; we represent one particle as a record of its three position and
three velocity components.  Per particle the loop body is
```
positions[i]   += velocity[i]
positions[i+1] += velocity[i+1]
positions[i+2] += velocity[i+2]
if (Math.abs(positions[i])   > 100) velocity[i]   *= -1
if (Math.abs(positions[i+1]) > 100) velocity[i+1] *= -1
if (Math.abs(positions[i+2]) > 100) velocity[i+2] *= -1
velocity[i+1] -= 0.0001
```
-/

/-- One particle: position and velocity components on the x, y, z axes. -/
structure Particle where
  px : ℚ
  py : ℚ
  pz : ℚ
  vx : ℚ
  vy : ℚ
  vz : ℚ
  deriving Repr, DecidableEq

/-- The constant per-frame decrement to the vertical velocity component
(`velocity[i + 1] -= 0.0001`). -/
def gravity : ℚ := 1 / 10000

/-- Body of the `updateParticles` loop for one particle: move by velocity,
negate a velocity component whenever the moved position exceeds 100 in
magnitude on that axis, then subtract `gravity` from the vertical velocity. -/
def updateParticle (q : Particle) : Particle :=
  let px := q.px + q.vx
  let py := q.py + q.vy
  let pz := q.pz + q.vz
  let vx := if |px| > 100 then -q.vx else q.vx
  let vy := if |py| > 100 then -q.vy else q.vy
  let vz := if |pz| > 100 then -q.vz else q.vz
  { px := px, py := py, pz := pz, vx := vx, vy := vy - gravity, vz := vz }

/-- Embedding of `updateParticles`: the loop body applied to every particle. -/
def updateParticles (l : List Particle) : List Particle :=
  l.map updateParticle

/-- Claim C6: one `updateParticles` call, per particle and axis: position
advances by velocity and is never clamped (it equals `old + velocity` even
beyond the 100 bound); the velocity component is negated exactly when the
moved position exceeds 100 in magnitude on that axis; and the vertical
velocity additionally loses the constant `gravity = 0.0001`, with no lower
bound (it can be made smaller than any given rational). -/
theorem c6_updateParticles_step (l : List Particle) :
    updateParticles l = l.map updateParticle ∧
    (∀ q : Particle,
      (updateParticle q).px = q.px + q.vx ∧
      (updateParticle q).py = q.py + q.vy ∧
      (updateParticle q).pz = q.pz + q.vz ∧
      (updateParticle q).vx = (if |q.px + q.vx| > 100 then -q.vx else q.vx) ∧
      (updateParticle q).vy =
        (if |q.py + q.vy| > 100 then -q.vy else q.vy) - gravity ∧
      (updateParticle q).vz = (if |q.pz + q.vz| > 100 then -q.vz else q.vz)) ∧
    (∀ B : ℚ, ∃ q : Particle, (updateParticle q).vy < B) := by
  refine ⟨rfl, fun q => ⟨rfl, rfl, rfl, rfl, rfl, rfl⟩, fun B => ?_⟩
  refine ⟨⟨0, -(B - 1), 0, 0, B - 1, 0⟩, ?_⟩
  have hq : (updateParticle ⟨0, -(B - 1), 0, 0, B - 1, 0⟩).vy
      = (if |(-(B - 1) + (B - 1) : ℚ)| > 100 then -(B - 1) else (B - 1)) - gravity :=
    rfl
  rw [hq]
  have h0 : (-(B - 1) + (B - 1) : ℚ) = 0 := by ring
  rw [h0, if_neg (by norm_num : ¬ |(0 : ℚ)| > 100)]
  simp only [gravity]
  linarith

/-- Start state for the C3 counterexample run: a particle inside the box
(`py = -99.9999`, within the construction range `(-100, 100)`) with a small
vertical velocity (`vy = -0.00008`, within the construction range
`(-0.025, 0.025)`) and the other axes at rest. -/
def c3start : Particle := ⟨0, -999999/10000, 0, 0, -1/12500, 0⟩

/-- Claim C3 counterexample: a run of `updateParticle` from a particle
inside the box (`|py| < 100`, `|vy| < 0.025`, as at construction).  After
two frames the particle has crossed the lower vertical boundary once and
stays beyond it, yet the third frame negates the vertical velocity again:
both frame 2 and frame 3 satisfy the bounce condition while the particle
remains below -100 throughout, so a single crossing flips the sign twice. -/
theorem c3_counterexample :
    -- the particle starts strictly inside the box with small velocity
    (|c3start.py| < 100 ∧ |c3start.vy| < 1/40) ∧
    -- frame 1: no bounce
    ¬ |(updateParticle c3start).py| > 100 ∧
    -- frame 2: the single crossing; the bounce negates vy
    (|(updateParticle (updateParticle c3start)).py| > 100 ∧
      (updateParticle (updateParticle c3start)).vy
        = -(updateParticle c3start).vy - gravity) ∧
    -- frame 3: the particle is still beyond the boundary (no new crossing),
    -- yet the bounce condition fires again and vy is negated a second time
    (|(updateParticle (updateParticle (updateParticle c3start))).py| > 100 ∧
      (updateParticle (updateParticle (updateParticle c3start))).vy
        = -(updateParticle (updateParticle c3start)).vy - gravity) := by
  have h1 : updateParticle c3start = ⟨0, -4999999/50000, 0, 0, -9/50000, 0⟩ := by
    simp only [c3start, updateParticle, gravity]
    norm_num [abs_of_nonneg]
  have h2 : updateParticle (⟨0, -4999999/50000, 0, 0, -9/50000, 0⟩ : Particle)
      = ⟨0, -5000008/50000, 0, 0, 4/50000, 0⟩ := by
    simp only [updateParticle, gravity]
    norm_num [abs_of_nonneg]
  have h3 : updateParticle (⟨0, -5000008/50000, 0, 0, 4/50000, 0⟩ : Particle)
      = ⟨0, -5000004/50000, 0, 0, -9/50000, 0⟩ := by
    simp only [updateParticle, gravity]
    norm_num [abs_of_nonneg]
  rw [h1, h2, h3]
  simp only [c3start, gravity]
  norm_num [abs_of_nonneg]

/-- Claim C3, amended: on an axis without gravity (x or z), a crossing does
flip the velocity exactly once — if the particle starts within the bound on
that axis and the bounce fires, the next frame's bounce condition on that
axis cannot fire again (the particle returns to its pre-crossing
coordinate).  On the vertical axis the per-frame gravity decrement can hold
a particle beyond the lower boundary for consecutive frames, and the code
then negates the vertical velocity again on each such frame. -/
theorem c3_amended_x_axis_single_flip (q : Particle)
    (hin : |q.px| ≤ 100) (hcross : |q.px + q.vx| > 100) :
    (updateParticle q).vx = -q.vx ∧
    ¬ |(updateParticle q).px + (updateParticle q).vx| > 100 := by
  constructor
  · simp only [updateParticle, if_pos hcross]
  · simp only [updateParticle, if_pos hcross]
    have h : q.px + q.vx + -q.vx = q.px := by ring
    rw [h]
    exact not_lt.mpr hin

/-- Witness for the amended C3 at a concrete crossing on the x axis:
`px = 99.99`, `vx = 0.02` crosses the upper boundary. -/
theorem c3_amended_witness :
    (updateParticle ⟨9999/100, 0, 0, 1/50, 0, 0⟩).vx = -(1/50) ∧
    ¬ |(updateParticle ⟨9999/100, 0, 0, 1/50, 0, 0⟩).px +
        (updateParticle ⟨9999/100, 0, 0, 1/50, 0, 0⟩).vx| > 100 := by
  have h := c3_amended_x_axis_single_flip ⟨9999/100, 0, 0, 1/50, 0, 0⟩
    (by rw [abs_of_pos (by norm_num)]; norm_num)
    (by rw [(by norm_num : (9999/100 : ℚ) + 1/50 = 10001/100),
            abs_of_pos (by norm_num)]; norm_num)
  exact h

/-! ## Scroll progress tracker

`FarmbridgeVisualization.setupScrollListener` (unnamed file, lines
287-294).  On each scroll event the handler computes
```
const scrollHeight = document.documentElement.scrollHeight - window.innerHeight
this.scrollProgress = scrollHeight > 0 ? window.scrollY / scrollHeight : 0
```
-/

/-- Embedding of the scroll handler's progress computation:
`scrollY` is the current offset, `scrollHeight` the scrollable height
(document height minus viewport height). -/
def computeScrollProgress (scrollY scrollHeight : ℚ) : ℚ :=
  if scrollHeight > 0 then scrollY / scrollHeight else 0

/-- Claim C8: unconditionally, on every scroll notification the tracker
computes `scrollY / scrollHeight` when `scrollHeight > 0` and the
constant 0 when the page has no scrollable overflow
(`scrollHeight ≤ 0`, including negative heights from a document shorter
than the viewport) — dividing only behind the positivity guard — and,
under the document-geometry precondition
`0 ≤ scrollY ≤ scrollHeight` only, the result lies in `[0, 1]`. -/
theorem c8_scroll_progress (scrollY scrollHeight : ℚ) :
    (scrollHeight ≤ 0 → computeScrollProgress scrollY scrollHeight = 0) ∧
    (scrollHeight > 0 →
      computeScrollProgress scrollY scrollHeight = scrollY / scrollHeight) ∧
    (0 ≤ scrollY → scrollY ≤ scrollHeight →
      0 ≤ computeScrollProgress scrollY scrollHeight ∧
      computeScrollProgress scrollY scrollHeight ≤ 1) := by
  refine ⟨fun hle => ?_, fun hgt => ?_, fun h0 h1 => ⟨?_, ?_⟩⟩
  · simp only [computeScrollProgress, if_neg (not_lt.mpr hle)]
  · simp only [computeScrollProgress, if_pos hgt]
  · by_cases hgt : scrollHeight > 0
    · simp only [computeScrollProgress, if_pos hgt]
      positivity
    · simp only [computeScrollProgress, if_neg hgt]
      norm_num
  · by_cases hgt : scrollHeight > 0
    · simp only [computeScrollProgress, if_pos hgt]
      rw [div_le_one hgt]
      exact h1
    · simp only [computeScrollProgress, if_neg hgt]
      norm_num

/-- Witness for C8: the no-overflow branch at `scrollY = 0`,
`scrollHeight = -15` (document shorter than the viewport), and the
positive branch with its `[0, 1]` bounds at `scrollY = 30`,
`scrollHeight = 120`. -/
theorem c8_witness :
    computeScrollProgress 0 (-15) = 0 ∧
    computeScrollProgress 30 120 = 30 / 120 ∧
    0 ≤ computeScrollProgress 30 120 ∧
    computeScrollProgress 30 120 ≤ 1 := by
  have h1 := c8_scroll_progress 0 (-15)
  have h2 := c8_scroll_progress 30 120
  exact ⟨h1.1 (by norm_num), h2.2.1 (by norm_num),
    (h2.2.2 (by norm_num) (by norm_num)).1,
    (h2.2.2 (by norm_num) (by norm_num)).2⟩

/-! ## Lifecycle, render loop, and event subscriptions

`FarmbridgeVisualization.animate` / `pause` / `resume` / `destroy`
(unnamed file, lines 365-384, 439-452, 457-477), the event wiring of
`setupEventListeners` / `setupScrollListener` (lines 279-294), the
parallax update `updateParallax` (lines 319-336), and the module-level
`beforeunload` subscription (lines 561-565).

The instance state is the ℚ-valued animation state plus lifecycle
bookkeeping.  The camera pose and the torus parallax offset are pure
functions of the scroll progress in the source (`Math.sin`/`Math.cos`,
modelled over ℝ above), so the state records the progress scalar and the
event semantics records which update routines a signal executes, as a
list of `UpdateCall`s. -/

/-- Update routines observable from the outside: which parts of the scene
a fired signal or frame callback executes. -/
inductive UpdateCall where
  | updateParticlesCall
  | updateCameraOnScrollCall
  | updateParallaxCall
  | renderCall
  | resizeCall
  deriving DecidableEq, Repr

/-- State of one `FarmbridgeVisualization` instance after setup, plus the
attachment status of its four external-signal subscriptions.  In the
source nothing ever calls `removeEventListener`, and `pause` cancels the
pending `requestAnimationFrame` request without clearing
`this.animationId`. -/
structure Viz where
  initialized : Bool
  /-- a frame callback is currently scheduled and not cancelled -/
  pendingFrame : Bool
  /-- `this.animationId`: last handle returned by `requestAnimationFrame`;
  `pause` tests its truthiness but never nulls it -/
  animationId : Option ℕ
  /-- next fresh `requestAnimationFrame` handle (browsers return ≥ 1) -/
  nextFrameId : ℕ
  scrollProgress : ℚ
  particles : List Particle
  /-- `torus.rotation`, incremented in `animate` -/
  torusRotX : ℚ
  torusRotY : ℚ
  /-- `particleSystem.rotation`, incremented in `animate` -/
  psRotX : ℚ
  psRotY : ℚ
  /-- `octahedron.rotation`, incremented in `updateParallax` -/
  octaRotX : ℚ
  octaRotY : ℚ
  /-- `cube.rotation`, incremented in `updateParallax` -/
  cubeRotX : ℚ
  cubeRotZ : ℚ
  /-- `octahedron.position.y`, eased toward `progress * 100` -/
  octaPosY : ℚ
  /-- `cube.position.y = -50 + progress * 100` -/
  cubePosY : ℚ
  scrollAttached : Bool
  resizeAttached : Bool
  visibilityAttached : Bool
  teardownAttached : Bool
  rendererDisposed : Bool

/-- `updateParallax` (lines 319-336): octahedron position eased with
factor 0.1, cube position linear in progress, idle rotation increments.
The torus sinusoidal offset is the pure ℝ function of progress and is
not part of the ℚ state. -/
def updateParallaxQ (s : Viz) : Viz :=
  { s with
    octaPosY := s.octaPosY + (s.scrollProgress * 100 - s.octaPosY) * (1/10)
    octaRotX := s.octaRotX + 3/1000
    octaRotY := s.octaRotY + 5/1000
    cubePosY := -50 + s.scrollProgress * 100
    cubeRotX := s.cubeRotX + 2/1000
    cubeRotZ := s.cubeRotZ + 4/1000 }

/-- `animate` (lines 365-384): schedule the next frame (fresh handle,
stored in `animationId`), then update particles, increment the torus and
particle-system idle rotations, and render.  The whole body runs
synchronously in the call to `animate` itself. -/
def animate (s : Viz) : Viz :=
  let s1 := { s with
    pendingFrame := true
    animationId := some s.nextFrameId
    nextFrameId := s.nextFrameId + 1 }
  { s1 with
    particles := updateParticles s1.particles
    torusRotX := s1.torusRotX + 1/1000
    torusRotY := s1.torusRotY + 2/1000
    psRotX := s1.psRotX + 1/10000
    psRotY := s1.psRotY + 2/10000 }

/-- The update routines one `animate` body executes. -/
def animateCalls : List UpdateCall :=
  [.updateParticlesCall, .renderCall]

/-- `pause` (lines 439-443): `if (this.animationId)
cancelAnimationFrame(this.animationId)`.  The stored handle is always the
most recently scheduled request, so cancelling it clears the pending
frame; `animationId` itself is left in place. -/
def pause (s : Viz) : Viz :=
  match s.animationId with
  | some _ => { s with pendingFrame := false }
  | none => s

/-- `resume` (lines 448-452): `if (this.initialized) this.animate()` —
note that `animate`'s body (one full update tick) runs synchronously
inside `resume`. -/
def resume (s : Viz) : Viz × List UpdateCall :=
  if s.initialized then (animate s, animateCalls) else (s, [])

/-- `destroy` (lines 457-477): `pause` (cancelling the pending frame),
then dispose the renderer and traverse the scene disposing geometries and
materials.  No `removeEventListener` call occurs anywhere in the file, so
the four subscriptions stay attached. -/
def destroy (s : Viz) : Viz :=
  { pause s with rendererDisposed := true }

/-- External signals the host page can fire at the instance, and the
frame callback. -/
inductive PageSignal where
  | scroll (scrollY scrollHeight : ℚ)
  | resize
  | visibilityChange (hidden : Bool)
  | frame
  | beforeunload

/-- Event semantics: what firing one signal does to the instance, and
which update routines it executes.  Handlers run only while their
subscription is attached; the frame callback runs only if a request is
pending.  The scroll handler (lines 287-294) recomputes
`scrollProgress`, then calls `updateCameraOnScroll` (the pure ℝ pose
function of the new progress) and `updateParallax`.  The visibility
handler (lines 354-360) pauses when hidden and resumes when visible.
The `beforeunload` handler (lines 561-565) calls `destroy`. -/
def fireSignal (s : Viz) (e : PageSignal) : Viz × List UpdateCall :=
  match e with
  | .scroll y h =>
    if s.scrollAttached then
      let s1 := { s with scrollProgress := computeScrollProgress y h }
      (updateParallaxQ s1, [.updateCameraOnScrollCall, .updateParallaxCall])
    else (s, [])
  | .resize =>
    if s.resizeAttached then (s, [.resizeCall]) else (s, [])
  | .visibilityChange hidden =>
    if s.visibilityAttached then
      if hidden then (pause s, []) else resume s
    else (s, [])
  | .frame =>
    if s.pendingFrame then (animate s, animateCalls) else (s, [])
  | .beforeunload =>
    if s.teardownAttached then (destroy s, []) else (s, [])

/-- A concrete ACTIVE instance: initialized, one pending frame request,
all four subscriptions attached, one particle drifting on the x axis. -/
def activeState : Viz :=
  { initialized := true
    pendingFrame := true
    animationId := some 5
    nextFrameId := 6
    scrollProgress := 0
    particles := [⟨0, 0, 0, 1/100, 0, 0⟩]
    torusRotX := 0, torusRotY := 0
    psRotX := 0, psRotY := 0
    octaRotX := 0, octaRotY := 0
    cubeRotX := 0, cubeRotZ := 0
    octaPosY := 0, cubePosY := 0
    scrollAttached := true
    resizeAttached := true
    visibilityAttached := true
    teardownAttached := true
    rendererDisposed := false }

/-- Claim C1 counterexample: after `destroy` on an ACTIVE instance, all
four subscriptions are still attached, a scroll signal still executes the
camera and parallax updates, and a visibility-visible signal resumes the
loop and executes a particle update that changes particle state — so
`destroy` detaches nothing and updates do run after it returns. -/
theorem c1_counterexample :
    (destroy activeState).scrollAttached = true ∧
    (destroy activeState).resizeAttached = true ∧
    (destroy activeState).visibilityAttached = true ∧
    (destroy activeState).teardownAttached = true ∧
    (fireSignal (destroy activeState) (.scroll 0 100)).2
      = [.updateCameraOnScrollCall, .updateParallaxCall] ∧
    (fireSignal (destroy activeState) (.visibilityChange false)).2
      = [.updateParticlesCall, .renderCall] ∧
    (fireSignal (destroy activeState) (.visibilityChange false)).1.particles
      ≠ activeState.particles := by
  refine ⟨rfl, rfl, rfl, rfl, rfl, rfl, ?_⟩
  have hp : (fireSignal (destroy activeState) (.visibilityChange false)).1.particles
      = [⟨1/100, 0, 0, 1/100, -1/10000, 0⟩] := by
    simp only [fireSignal, destroy, pause, activeState, resume, animate,
      updateParticles]
    norm_num [updateParticle, gravity, abs_of_nonneg]
  rw [hp]
  simp only [activeState]
  intro h
  have h1 := List.head_eq_of_cons_eq h
  have h2 := congrArg Particle.px h1
  norm_num at h2

/-- Claim C1, amended: `destroy` on an instance whose `animationId` is set
(true of any instance that has ever run `animate`) does cancel the pending
frame request — after `destroy` the frame callback never fires — but it
detaches none of the four external-signal subscriptions, which keep their
previous attachment status; the scroll, resize, and visibility handlers
therefore still run, and a visibility-visible signal restarts the loop. -/
theorem c1_amended_destroy (s : Viz) (h : s.animationId.isSome = true) :
    (destroy s).pendingFrame = false ∧
    fireSignal (destroy s) .frame = (destroy s, []) ∧
    (destroy s).scrollAttached = s.scrollAttached ∧
    (destroy s).resizeAttached = s.resizeAttached ∧
    (destroy s).visibilityAttached = s.visibilityAttached ∧
    (destroy s).teardownAttached = s.teardownAttached := by
  obtain ⟨id, hid⟩ := Option.isSome_iff_exists.mp h
  refine ⟨?_, ?_, ?_, ?_, ?_, ?_⟩ <;>
    simp [destroy, pause, hid, fireSignal]

/-- Witness for the amended C1 at the concrete ACTIVE state. -/
theorem c1_amended_witness :
    (destroy activeState).pendingFrame = false ∧
    fireSignal (destroy activeState) .frame = (destroy activeState, []) := by
  have h := c1_amended_destroy activeState rfl
  exact ⟨h.1, h.2.1⟩

/-- Claim C4 counterexample: `pause` then `resume` on the concrete ACTIVE
instance changes the particle state and the torus rotation, because
`resume` calls `animate`, whose body — one full update tick — runs
synchronously inside the `resume` call itself. -/
theorem c4_counterexample :
    (resume (pause activeState)).1.particles ≠ activeState.particles ∧
    (resume (pause activeState)).1.torusRotX ≠ activeState.torusRotX := by
  constructor
  · have hp : (resume (pause activeState)).1.particles
        = [⟨1/100, 0, 0, 1/100, -1/10000, 0⟩] := by
      simp only [resume, pause, activeState, animate, updateParticles]
      norm_num [updateParticle, gravity, abs_of_nonneg]
    rw [hp]
    simp only [activeState]
    intro h
    have h1 := List.head_eq_of_cons_eq h
    have h2 := congrArg Particle.px h1
    norm_num at h2
  · have ht : (resume (pause activeState)).1.torusRotX = 1/1000 := by
      simp only [resume, pause, activeState, animate]
      norm_num
    rw [ht]
    simp only [activeState]
    norm_num

/-- Claim C4, amended: `pause` then `resume` on an initialized instance
applies no multi-frame catch-up burst, but it is not a no-op either: it
synchronously executes exactly one frame tick — particle positions advance
by exactly one `updateParticles` step, the torus and particle-system idle
rotations increment exactly once, and the parallax-driven rotations and
positions stay unchanged. -/
theorem c4_amended_pause_resume (s : Viz) (h : s.initialized = true) :
    (resume (pause s)).1.particles = updateParticles s.particles ∧
    (resume (pause s)).1.torusRotX = s.torusRotX + 1/1000 ∧
    (resume (pause s)).1.torusRotY = s.torusRotY + 2/1000 ∧
    (resume (pause s)).1.psRotX = s.psRotX + 1/10000 ∧
    (resume (pause s)).1.psRotY = s.psRotY + 2/10000 ∧
    (resume (pause s)).1.octaRotX = s.octaRotX ∧
    (resume (pause s)).1.octaRotY = s.octaRotY ∧
    (resume (pause s)).1.cubeRotX = s.cubeRotX ∧
    (resume (pause s)).1.cubeRotZ = s.cubeRotZ ∧
    (resume (pause s)).1.octaPosY = s.octaPosY ∧
    (resume (pause s)).1.cubePosY = s.cubePosY ∧
    (resume (pause s)).2 = animateCalls := by
  cases hid : s.animationId <;>
    refine ⟨?_, ?_, ?_, ?_, ?_, ?_, ?_, ?_, ?_, ?_, ?_, ?_⟩ <;>
    simp [resume, pause, hid, animate, h]

/-- Witness for the amended C4 at the concrete ACTIVE state. -/
theorem c4_amended_witness :
    (resume (pause activeState)).1.particles
      = updateParticles activeState.particles ∧
    (resume (pause activeState)).1.torusRotX = activeState.torusRotX + 1/1000 := by
  have h := c4_amended_pause_resume activeState rfl
  exact ⟨h.1, h.2.1⟩

/-! ## Initialization and WebGL fallback

`FarmbridgeVisualization.init` (lines 44-69) and
`handleWebGLFallback` (lines 416-434). -/

/-- Where the fallback panel (or the renderer canvas) is appended:
`document.getElementById('three-container') || document.body`. -/
inductive MountPoint where
  | container
  | body
  deriving DecidableEq, Repr

/-- The setup routines `init` can call, in source order. -/
inductive SetupCall where
  | setupScene
  | setupCamera
  | setupRenderer
  | setupLighting
  | createParticles
  | createGeometries
  | setupEventListeners
  | setupScrollListener
  deriving DecidableEq, Repr

/-- Outcome of `init`: the setup routines invoked, the fallback panels
mounted with their mount points, and the resulting `initialized` flag. -/
structure InitResult where
  calls : List SetupCall
  fallbackPanels : List MountPoint
  initialized : Bool
  deriving DecidableEq, Repr

/-- `handleWebGLFallback` (lines 416-434): creates one panel and appends
it to the `three-container` element, or to `document.body` when that
element does not exist. -/
def handleWebGLFallback (containerExists : Bool) : MountPoint :=
  if containerExists then .container else .body

/-- Embedding of `init` (lines 44-69): if `isWebGLSupported()` returns
false, mount the fallback panel and return at once — no setup routine
runs; otherwise run the eight setup routines in order, set `initialized`,
and start the loop.  (In this embedding the setup routines are total, so
the `catch` branch of the source is unreachable.) -/
def init (webglSupported containerExists : Bool) : InitResult :=
  if ¬ webglSupported then
    { calls := []
      fallbackPanels := [handleWebGLFallback containerExists]
      initialized := false }
  else
    { calls := [.setupScene, .setupCamera, .setupRenderer, .setupLighting,
                .createParticles, .createGeometries, .setupEventListeners,
                .setupScrollListener]
      fallbackPanels := []
      initialized := true }

/-- Claim C5: when the capability check fails, `init` calls none of
`createParticles`, `setupCamera`, `createGeometries` (it calls no setup
routine at all) and mounts exactly one fallback panel — into the
designated container when it exists, else into the document body. -/
theorem c5_fallback_no_construction (containerExists : Bool) :
    SetupCall.createParticles ∉ (init false containerExists).calls ∧
    SetupCall.setupCamera ∉ (init false containerExists).calls ∧
    SetupCall.createGeometries ∉ (init false containerExists).calls ∧
    (init false containerExists).calls = [] ∧
    (init false containerExists).fallbackPanels.length = 1 ∧
    (init false containerExists).fallbackPanels
      = [if containerExists then MountPoint.container else MountPoint.body] := by
  cases containerExists <;> decide

/-! ## HTTP retry wrapper

`API.request` in `script.js` (lines 111-142), with
`CONFIG.maxRetries = 3` (line 21).  One attempt is a `fetch` plus
response check plus JSON parse, any of which can fail; we model the
outcome of attempt number `n` (0-based) by an oracle
`f : ℕ → Except E V`.  On failure with `retries < maxRetries`, the
source waits `CONFIG.retryDelay` (not part of the value-level model) and
recurses with `retries + 1`; otherwise it rethrows the error. -/

/-- `CONFIG.maxRetries`. -/
def maxRetries : ℕ := 3

/-- Embedding of `API.request` from recursion depth `retries`, also
counting the `fetch` attempts performed: attempt `retries` runs; on
success its value is returned with one attempt used; on failure the call
recurses with `retries + 1` when `retries < maxRetries` and otherwise
rethrows the final error. -/
def requestGo {E V : Type} (f : ℕ → Except E V) (retries : ℕ) :
    Except E V × ℕ :=
  match f retries with
  | Except.ok v => (Except.ok v, 1)
  | Except.error e =>
    if h : retries < maxRetries then
      let r := requestGo f (retries + 1)
      (r.1, r.2 + 1)
    else
      (Except.error e, 1)
termination_by maxRetries - retries
decreasing_by simp_wf; omega

/-- `API.request` as called by `API.get`/`post`/`put`/`delete`:
recursion starts at `retries = 0`. -/
def request {E V : Type} (f : ℕ → Except E V) : Except E V × ℕ :=
  requestGo f 0

theorem requestGo_ok {E V : Type} (f : ℕ → Except E V) (r : ℕ) (v : V)
    (h : f r = Except.ok v) : requestGo f r = (Except.ok v, 1) := by
  rw [requestGo, h]

theorem requestGo_retry {E V : Type} (f : ℕ → Except E V) (r : ℕ) (e : E)
    (h : f r = Except.error e) (hr : r < maxRetries) :
    requestGo f r = ((requestGo f (r + 1)).1, (requestGo f (r + 1)).2 + 1) := by
  rw [requestGo, h]
  simp [hr]

theorem requestGo_exhausted {E V : Type} (f : ℕ → Except E V) (e : E)
    (h : f maxRetries = Except.error e) :
    requestGo f maxRetries = (Except.error e, 1) := by
  rw [requestGo, h]
  simp [maxRetries]

theorem requestGo_attempts_le {E V : Type} (f : ℕ → Except E V) :
    ∀ n r : ℕ, maxRetries - r ≤ n → (requestGo f r).2 ≤ n + 1 := by
  intro n
  induction n with
  | zero =>
    intro r hr
    rw [requestGo]
    cases f r with
    | ok v => simp
    | error e =>
      have : ¬ r < maxRetries := by omega
      simp [this]
  | succ n ih =>
    intro r hr
    rw [requestGo]
    cases f r with
    | ok v => simp
    | error e =>
      by_cases h : r < maxRetries
      · simp only [h, dif_pos]
        have := ih (r + 1) (by omega)
        simpa using by omega
      · simp [h]

/-- Claim C9: `API.request` makes at most `1 + CONFIG.maxRetries = 4`
fetch attempts; a successful attempt returns its parsed value at once
with no further attempts; a failed attempt with `retries < maxRetries`
leads to exactly one more recursive round; a failure at
`retries = maxRetries` rethrows that final error with no further attempt;
in particular when all four attempts fail, the caller receives the
fourth attempt's error after exactly 4 attempts. -/
theorem c9_request_retry_contract {E V : Type} (f : ℕ → Except E V) :
    (request f).2 ≤ 1 + maxRetries ∧
    (∀ v, f 0 = Except.ok v → request f = (Except.ok v, 1)) ∧
    (∀ r v, f r = Except.ok v → requestGo f r = (Except.ok v, 1)) ∧
    (∀ r e, r < maxRetries → f r = Except.error e →
      requestGo f r = ((requestGo f (r + 1)).1, (requestGo f (r + 1)).2 + 1)) ∧
    (∀ e, f maxRetries = Except.error e →
      requestGo f maxRetries = (Except.error e, 1)) ∧
    (∀ e0 e1 e2 e3, f 0 = Except.error e0 → f 1 = Except.error e1 →
      f 2 = Except.error e2 → f 3 = Except.error e3 →
      request f = (Except.error e3, 4)) := by
  refine ⟨?_, ?_, ?_, ?_, ?_, ?_⟩
  · have h := requestGo_attempts_le f maxRetries 0 (by omega)
    simpa [request, maxRetries] using h
  · intro v h
    exact requestGo_ok f 0 v h
  · intro r v h
    exact requestGo_ok f r v h
  · intro r e hr h
    exact requestGo_retry f r e h hr
  · intro e h
    exact requestGo_exhausted f e h
  · intro e0 e1 e2 e3 h0 h1 h2 h3
    have s3 : requestGo f 3 = (Except.error e3, 1) :=
      requestGo_exhausted f e3 h3
    have s2 := requestGo_retry f 2 e2 h2 (by norm_num [maxRetries])
    have s1 := requestGo_retry f 1 e1 h1 (by norm_num [maxRetries])
    have s0 := requestGo_retry f 0 e0 h0 (by norm_num [maxRetries])
    show requestGo f 0 = (Except.error e3, 4)
    rw [s0, s1, s2, s3]

/-- Oracle for the C9 witness: the first attempt fails, every later
attempt succeeds with the value 7. -/
def c9oracle : ℕ → Except ℕ ℕ :=
  fun n => if n = 0 then Except.error 0 else Except.ok 7

/-- Witness for C9: on `c9oracle` the request retries once, succeeds on
the second attempt, and stays within the 4-attempt bound. -/
theorem c9_witness :
    request c9oracle = (Except.ok 7, 2) ∧
    (request c9oracle).2 ≤ 1 + maxRetries := by
  have h := c9_request_retry_contract c9oracle
  have hstep := h.2.2.2.1 0 0 (by norm_num [maxRetries]) rfl
  have hok := h.2.2.1 1 7 rfl
  refine ⟨?_, h.1⟩
  show requestGo c9oracle 0 = (Except.ok 7, 2)
  rw [hstep, hok]

/-! ## Local-storage cache

`Storage` in `script.js` (lines 153-189).  `localStorage` maps string
keys to strings; `Storage.get` parses the stored string as JSON.  We
model a stored string by what `JSON.parse` makes of it: either a parsed
record `{ value, expiry? }` or `malformed` (parse throws).  `Storage.set`
always writes a parsed record.  Times are `Date.now()` values in
milliseconds.  In `Storage.get` the guard is
`if (data.expiry && Date.now() > data.expiry)` — JS truthiness, so an
`expiry` field equal to 0 would not count; the value is returned
otherwise and the entry removed only in the expired branch. -/

/-- What `JSON.parse` yields for one stored string. -/
inductive RawEntry (V : Type) where
  | parsed (value : V) (expiry : Option ℕ)
  | malformed
  deriving DecidableEq

/-- The `localStorage` contents visible to `Storage`. -/
def Store (V : Type) : Type := String → Option (RawEntry V)

/-- `localStorage.setItem`. -/
def setItem {V : Type} (st : Store V) (key : String) (e : RawEntry V) :
    Store V :=
  fun k => if k = key then some e else st k

/-- `localStorage.removeItem` (via `Storage.remove`). -/
def removeItem {V : Type} (st : Store V) (key : String) : Store V :=
  fun k => if k = key then none else st k

/-- `Storage.set` (lines 154-161): store `{ value }`, adding
`expiry = Date.now() + expiryMinutes * 60 * 1000` only when
`expiryMinutes` is truthy (nonzero; the default `null` is modelled by 0). -/
def storageSet {V : Type} (st : Store V) (key : String) (value : V)
    (expiryMinutes : ℕ) (now : ℕ) : Store V :=
  setItem st key (RawEntry.parsed value
    (if expiryMinutes ≠ 0 then some (now + expiryMinutes * 60 * 1000) else none))

/-- `Storage.get` (lines 163-178): absent key → `null`; parse failure is
caught → `null`; a truthy `expiry` strictly in the past → remove the
entry and return `null`; otherwise return the stored value.  The result
pairs the returned value with the storage contents afterwards. -/
def storageGet {V : Type} (st : Store V) (key : String) (now : ℕ) :
    Option V × Store V :=
  match st key with
  | none => (none, st)
  | some RawEntry.malformed => (none, st)
  | some (RawEntry.parsed v exp) =>
    match exp with
    | some e =>
      if e ≠ 0 ∧ now > e then (none, removeItem st key) else (some v, st)
    | none => (some v, st)

/-- Claim C10: `Storage.get` is total (the model returns an `Option`,
never failing): it returns `none` for an absent key, for an unparseable
stored string, and for an entry whose expiry is strictly in the past — in
that last case removing the entry — and a `Storage.set` followed by a
`Storage.get` before the expiry returns exactly the stored value. -/
theorem c10_storage_contract {V : Type} (st : Store V) (key : String)
    (v : V) (m tset tget : ℕ) :
    (st key = none → storageGet st key tget = (none, st)) ∧
    (st key = some RawEntry.malformed → storageGet st key tget = (none, st)) ∧
    (m = 0 → (storageGet (storageSet st key v m tset) key tget).1 = some v) ∧
    (m ≠ 0 → tget ≤ tset + m * 60 * 1000 →
      (storageGet (storageSet st key v m tset) key tget).1 = some v) ∧
    (m ≠ 0 → tget > tset + m * 60 * 1000 →
      (storageGet (storageSet st key v m tset) key tget).1 = none ∧
      (storageGet (storageSet st key v m tset) key tget).2 key = none) := by
  refine ⟨?_, ?_, ?_, ?_, ?_⟩
  · intro h
    simp [storageGet, h]
  · intro h
    simp [storageGet, h]
  · intro hm
    simp [storageGet, storageSet, setItem, hm]
  · intro hm hle
    have hnl : ¬ tset + m * 60 * 1000 < tget := by omega
    simp [storageGet, storageSet, setItem, hm, hnl]
  · intro hm hgt
    have he : tset + m * 60 * 1000 ≠ 0 ∧ tget > tset + m * 60 * 1000 := by
      constructor <;> omega
    constructor <;>
      simp [storageGet, storageSet, setItem, removeItem, hm, he]

/-- Witness for C10 on a concrete store: key `k`, value 42, a 5-minute
expiry set at time 0; reading at time 100 returns the value, reading at
time 600000 (past the 300000 ms expiry) returns `none`. -/
theorem c10_witness :
    (storageGet (storageSet (fun _ => none) "k" (42 : ℕ) 5 0) "k" 100).1
      = some 42 ∧
    (storageGet (storageSet (fun _ => none) "k" (42 : ℕ) 5 0) "k" 600000).1
      = none := by
  have h1 := c10_storage_contract (fun _ => none : Store ℕ) "k" 42 5 0 100
  have h2 := c10_storage_contract (fun _ => none : Store ℕ) "k" 42 5 0 600000
  exact ⟨h1.2.2.2.1 (by norm_num) (by norm_num),
    (h2.2.2.2.2 (by norm_num) (by norm_num)).1⟩

end Farmbridge
